import Mathlib

/-!
# Ultrasonic driver (`ultrasonic.c`): edge-timing state machine

A shallow embedding of the driver of `Mini_Project_04/ultrasonic.c`.

* The five globals (`g_edgeCount` : uint8, the other four : uint16) become the
  fields of `State`; machine arithmetic is done on `Nat` with explicit
  reductions modulo `2^8` and `2^16`.
* Every C function is a function from the state to a `Run`: the returned
  value, the state afterwards and the list of calls made into the collaborating
  drivers (GPIO, delay, ICU), in program order.
* `DIVISION_FACTOR` is defined in `ultrasonic.h`, outside the sources at hand;
  it is a parameter of `Ultrasonic_readDistance`.
* The value that `Icu_getInputCaptureValue()` would return during a callback is
  an argument of `Ultrasonic_edgeProcessing`.
-/

namespace Ultrasonic

/-! ## Data model -/

/-- Edge-detection types of the ICU driver. -/
inductive Icu_EdgeType where
  | FALLING
  | RISING
deriving DecidableEq

/-- Clock selection of the ICU driver; the ultrasonic driver only uses `F_CPU_8`. -/
inductive Icu_Clock where
  | F_CPU_8
deriving DecidableEq

/-- Configuration structure handed to `Icu_init`. -/
structure Icu_ConfigType where
  clock : Icu_Clock
  edge : Icu_EdgeType
deriving DecidableEq

/-- Logic levels written to a GPIO pin. -/
inductive Logic where
  | LOGIC_LOW
  | LOGIC_HIGH
deriving DecidableEq

/-- Calls made by the driver into its collaborators. Every GPIO call of the
driver addresses the trigger pin (`ULTRASONIC_SENSOR_TRIGGER_PORT_ID`,
`ULTRASONIC_SENSOR_TRIGGER_PIN_ID`), so the pin is not an argument.
`Icu_getInputCaptureValue v` is a call of `Icu_getInputCaptureValue()` that
returned `v`. -/
inductive Cmd where
  | Icu_setCallBack
  | Icu_init (cfg : Icu_ConfigType)
  | GPIO_setupPinDirection
  | GPIO_writePin (level : Logic)
  | delay_us (n : Nat)
  | Icu_clearTimerValue
  | Icu_setEdgeDetectionType (e : Icu_EdgeType)
  | Icu_getInputCaptureValue (v : Nat)
deriving DecidableEq

/-- The global variables of `ultrasonic.c`. `g_edgeCount` is a `uint8`, the
other four are `uint16`. -/
structure State where
  g_edgeCount : Nat
  g_timeHigh : Nat
  g_timePeriod : Nat
  g_timePeriodPlusHigh : Nat
  g_sensorDistance : Nat
deriving DecidableEq

/-- The initializers of the globals: all zero. -/
def State.initial : State :=
  { g_edgeCount := 0, g_timeHigh := 0, g_timePeriod := 0,
    g_timePeriodPlusHigh := 0, g_sensorDistance := 0 }

/-- Outcome of running a C function: returned value, state afterwards, and the
calls made into the collaborators, in order. -/
structure Run (α : Type) where
  ret : α
  state : State
  trace : List Cmd

/-! ## Machine arithmetic -/

/-- Subtraction of two `uint16` operands (the target's `unsigned int` is 16 bits
wide, so the difference is taken modulo `2^16`). -/
def u16_sub (a b : Nat) : Nat :=
  (a + (65536 - b % 65536)) % 65536

/-- Conversion to `uint16` on assignment. -/
def u16 (n : Nat) : Nat :=
  n % 65536

/-- Post-increment of a `uint8`. -/
def u8_inc (n : Nat) : Nat :=
  (n + 1) % 256

/-! ## The driver -/

/-- `Ultrasonic_init`: registers the callback, initializes the ICU with
`{ F_CPU_8, RISING }` and makes the trigger pin an output. -/
def Ultrasonic_init (s : State) : Run Unit :=
  { ret := (), state := s,
    trace := [Cmd.Icu_setCallBack,
              Cmd.Icu_init { clock := Icu_Clock.F_CPU_8, edge := Icu_EdgeType.RISING },
              Cmd.GPIO_setupPinDirection] }

/-- `Ultrasonic_Trigger`: pin high, `_delay_us(10)`, pin low. -/
def Ultrasonic_Trigger (s : State) : Run Unit :=
  { ret := (), state := s,
    trace := [Cmd.GPIO_writePin Logic.LOGIC_HIGH, Cmd.delay_us 10,
              Cmd.GPIO_writePin Logic.LOGIC_LOW] }

/-- The part of `Ultrasonic_readDistance` that follows the call of
`Ultrasonic_Trigger`: the test of `g_edgeCount` and the `return`. -/
def readDistance_afterTrigger (DIVISION_FACTOR : Nat) (s : State) : Run Nat :=
  if s.g_edgeCount = 4 then
    let s1 := { s with g_edgeCount := 0 }
    let s2 := { s1 with
      g_sensorDistance :=
        u16 (u16_sub s1.g_timePeriodPlusHigh s1.g_timePeriod / DIVISION_FACTOR) }
    { ret := s2.g_sensorDistance, state := s2, trace := [] }
  else
    { ret := s.g_sensorDistance, state := s, trace := [] }

/-- `Ultrasonic_readDistance`: send the trigger pulse, then, if four edges have
been counted, reset the count and recompute the distance; return the distance.
The C program is only defined for a non-zero `DIVISION_FACTOR`. -/
def Ultrasonic_readDistance (DIVISION_FACTOR : Nat) (s : State) : Run Nat :=
  let t := Ultrasonic_Trigger s
  let r := readDistance_afterTrigger DIVISION_FACTOR t.state
  { ret := r.ret, state := r.state, trace := t.trace ++ r.trace }

/-- `Ultrasonic_edgeProcessing`, the ICU callback. `capture` is the value that
`Icu_getInputCaptureValue()` returns during this invocation. -/
def Ultrasonic_edgeProcessing (capture : Nat) (s : State) : Run Unit :=
  let s1 := { s with g_edgeCount := u8_inc s.g_edgeCount }
  if s1.g_edgeCount = 1 then
    { ret := (), state := s1,
      trace := [Cmd.Icu_clearTimerValue,
                Cmd.Icu_setEdgeDetectionType Icu_EdgeType.FALLING] }
  else if s1.g_edgeCount = 2 then
    { ret := (), state := { s1 with g_timeHigh := capture },
      trace := [Cmd.Icu_getInputCaptureValue capture,
                Cmd.Icu_setEdgeDetectionType Icu_EdgeType.RISING] }
  else if s1.g_edgeCount = 3 then
    { ret := (), state := { s1 with g_timePeriod := capture },
      trace := [Cmd.Icu_getInputCaptureValue capture,
                Cmd.Icu_setEdgeDetectionType Icu_EdgeType.FALLING] }
  else if s1.g_edgeCount = 4 then
    { ret := (), state := { s1 with g_timePeriodPlusHigh := capture },
      trace := [Cmd.Icu_getInputCaptureValue capture,
                Cmd.Icu_clearTimerValue,
                Cmd.Icu_setEdgeDetectionType Icu_EdgeType.RISING] }
  else
    { ret := (), state := s1, trace := [] }

/-! ## Sequences of calls -/

/-- State after one callback. -/
def edge (capture : Nat) (s : State) : State :=
  (Ultrasonic_edgeProcessing capture s).state

/-- State after one read. -/
def read (DIVISION_FACTOR : Nat) (s : State) : State :=
  (Ultrasonic_readDistance DIVISION_FACTOR s).state

/-- The two transitions of the system: a callback from the ICU (with the
capture value the ICU holds at that moment) or a read by the application. -/
inductive Call where
  | edgeProcessing (capture : Nat)
  | readDistance
deriving DecidableEq

/-- State after one transition. -/
def step (DIVISION_FACTOR : Nat) (s : State) : Call → State
  | Call.edgeProcessing capture => edge capture s
  | Call.readDistance => read DIVISION_FACTOR s

/-- State after a sequence of transitions, first call first. -/
def run (DIVISION_FACTOR : Nat) (s : State) (calls : List Call) : State :=
  calls.foldl (step DIVISION_FACTOR) s

/-- No callback of the sequence is executed in a state with `g_edgeCount = 4`:
every completed cycle is read before the next edge arrives. -/
def readBeforeNextEdge (DIVISION_FACTOR : Nat) (s : State) : List Call → Bool
  | [] => true
  | Call.edgeProcessing capture :: rest =>
      s.g_edgeCount != 4 && readBeforeNextEdge DIVISION_FACTOR (edge capture s) rest
  | Call.readDistance :: rest =>
      readBeforeNextEdge DIVISION_FACTOR (read DIVISION_FACTOR s) rest

/-- The edge-detection types requested by a sequence of calls, in order. -/
def requestedEdges : List Cmd → List Icu_EdgeType
  | [] => []
  | Cmd.Icu_setEdgeDetectionType e :: rest => e :: requestedEdges rest
  | _ :: rest => requestedEdges rest

/-- Modelled from the spec: the capture peripheral's edge selection (its driver,
`icu.c`, is not part of the sources): `Icu_init` puts the configured initial
edge type in force, `Icu_setEdgeDetectionType` replaces it, no other call
changes it. `none` stands for a peripheral that has not been initialized. -/
def edgeInForce (e : Option Icu_EdgeType) : List Cmd → Option Icu_EdgeType
  | [] => e
  | Cmd.Icu_init cfg :: rest => edgeInForce (some cfg.edge) rest
  | Cmd.Icu_setEdgeDetectionType e1 :: rest => edgeInForce (some e1) rest
  | _ :: rest => edgeInForce e rest

/-- Calls addressed to the capture peripheral. -/
def Cmd.isIcu : Cmd → Bool
  | Cmd.Icu_setCallBack => true
  | Cmd.Icu_init _ => true
  | Cmd.Icu_clearTimerValue => true
  | Cmd.Icu_setEdgeDetectionType _ => true
  | Cmd.Icu_getInputCaptureValue _ => true
  | Cmd.GPIO_setupPinDirection => false
  | Cmd.GPIO_writePin _ => false
  | Cmd.delay_us _ => false

/-- Calls that read the capture register. -/
def Cmd.isCaptureRead : Cmd → Bool
  | Cmd.Icu_getInputCaptureValue _ => true
  | _ => false

/-- Number of callbacks in a sequence of transitions. -/
def numCallbacks : List Call → Nat
  | [] => 0
  | Call.edgeProcessing _ :: rest => numCallbacks rest + 1
  | Call.readDistance :: rest => numCallbacks rest

/-- Calls into the collaborators made by one transition. -/
def callTrace (DIVISION_FACTOR : Nat) (s : State) : Call → List Cmd
  | Call.edgeProcessing capture => (Ultrasonic_edgeProcessing capture s).trace
  | Call.readDistance => (Ultrasonic_readDistance DIVISION_FACTOR s).trace

/-- Calls into the collaborators made by a sequence of transitions, in order. -/
def runTrace (DIVISION_FACTOR : Nat) (s : State) : List Call → List Cmd
  | [] => []
  | c :: rest =>
      callTrace DIVISION_FACTOR s c
        ++ runTrace DIVISION_FACTOR (step DIVISION_FACTOR s c) rest

/-- Values returned by the reads of a sequence of transitions, in order. -/
def runReturns (DIVISION_FACTOR : Nat) (s : State) : List Call → List Nat
  | [] => []
  | Call.edgeProcessing capture :: rest =>
      runReturns DIVISION_FACTOR (edge capture s) rest
  | Call.readDistance :: rest =>
      (Ultrasonic_readDistance DIVISION_FACTOR s).ret
        :: runReturns DIVISION_FACTOR (read DIVISION_FACTOR s) rest

/-- Calls that clear the free-running counter of the capture peripheral. -/
def Cmd.isCounterClear : Cmd → Bool
  | Cmd.Icu_clearTimerValue => true
  | _ => false

/-! ## Auxiliary facts -/

theorem u16_sub_lt (a b : Nat) : u16_sub a b < 65536 := by
  unfold u16_sub
  omega

theorem u16_sub_int (a b : Nat) : ((u16_sub a b : Nat) : Int) = ((a : Int) - b) % 65536 := by
  unfold u16_sub
  omega

theorem u16_sub_of_le (a b : Nat) (hba : b ≤ a) (ha : a < 65536) : u16_sub a b = a - b := by
  unfold u16_sub
  omega

theorem u16_div_eq (x d : Nat) (hx : x < 65536) : u16 (x / d) = x / d := by
  unfold u16
  exact Nat.mod_eq_of_lt (lt_of_le_of_lt (Nat.div_le_self x d) hx)

theorem readDistance_of_four (d : Nat) (s : State) (h : s.g_edgeCount = 4) :
    Ultrasonic_readDistance d s =
      { ret := u16_sub s.g_timePeriodPlusHigh s.g_timePeriod / d,
        state := { s with
          g_edgeCount := 0,
          g_sensorDistance := u16_sub s.g_timePeriodPlusHigh s.g_timePeriod / d },
        trace := [Cmd.GPIO_writePin Logic.LOGIC_HIGH, Cmd.delay_us 10,
                  Cmd.GPIO_writePin Logic.LOGIC_LOW] } := by
  simp [Ultrasonic_readDistance, readDistance_afterTrigger, Ultrasonic_Trigger, h,
    u16_div_eq _ _ (u16_sub_lt _ _)]

theorem readDistance_of_ne_four (d : Nat) (s : State) (h : s.g_edgeCount ≠ 4) :
    Ultrasonic_readDistance d s =
      { ret := s.g_sensorDistance, state := s,
        trace := [Cmd.GPIO_writePin Logic.LOGIC_HIGH, Cmd.delay_us 10,
                  Cmd.GPIO_writePin Logic.LOGIC_LOW] } := by
  simp [Ultrasonic_readDistance, readDistance_afterTrigger, Ultrasonic_Trigger, h]

theorem readDistance_ret_eq (d : Nat) (s : State) :
    (Ultrasonic_readDistance d s).ret = (Ultrasonic_readDistance d s).state.g_sensorDistance := by
  by_cases h : s.g_edgeCount = 4
  · rw [readDistance_of_four d s h]
  · rw [readDistance_of_ne_four d s h]

theorem readDistance_edgeCount_ne_four (d : Nat) (s : State) :
    (Ultrasonic_readDistance d s).state.g_edgeCount ≠ 4 := by
  by_cases h : s.g_edgeCount = 4
  · rw [readDistance_of_four d s h]
    simp
  · rw [readDistance_of_ne_four d s h]
    exact h

theorem edge_one (v : Nat) (s : State) (h : s.g_edgeCount = 0) :
    Ultrasonic_edgeProcessing v s =
      { ret := (), state := { s with g_edgeCount := 1 },
        trace := [Cmd.Icu_clearTimerValue,
                  Cmd.Icu_setEdgeDetectionType Icu_EdgeType.FALLING] } := by
  simp [Ultrasonic_edgeProcessing, u8_inc, h]

theorem edge_two (v : Nat) (s : State) (h : s.g_edgeCount = 1) :
    Ultrasonic_edgeProcessing v s =
      { ret := (), state := { s with g_edgeCount := 2, g_timeHigh := v },
        trace := [Cmd.Icu_getInputCaptureValue v,
                  Cmd.Icu_setEdgeDetectionType Icu_EdgeType.RISING] } := by
  simp [Ultrasonic_edgeProcessing, u8_inc, h]

theorem edge_three (v : Nat) (s : State) (h : s.g_edgeCount = 2) :
    Ultrasonic_edgeProcessing v s =
      { ret := (), state := { s with g_edgeCount := 3, g_timePeriod := v },
        trace := [Cmd.Icu_getInputCaptureValue v,
                  Cmd.Icu_setEdgeDetectionType Icu_EdgeType.FALLING] } := by
  simp [Ultrasonic_edgeProcessing, u8_inc, h]

theorem edge_four (v : Nat) (s : State) (h : s.g_edgeCount = 3) :
    Ultrasonic_edgeProcessing v s =
      { ret := (), state := { s with g_edgeCount := 4, g_timePeriodPlusHigh := v },
        trace := [Cmd.Icu_getInputCaptureValue v,
                  Cmd.Icu_clearTimerValue,
                  Cmd.Icu_setEdgeDetectionType Icu_EdgeType.RISING] } := by
  simp [Ultrasonic_edgeProcessing, u8_inc, h]

theorem four_edges (v1 v2 v3 v4 : Nat) (s : State) (h : s.g_edgeCount = 0) :
    edge v4 (edge v3 (edge v2 (edge v1 s))) =
      { s with g_edgeCount := 4, g_timeHigh := v2, g_timePeriod := v3,
               g_timePeriodPlusHigh := v4 } := by
  have h1 : edge v1 s = { s with g_edgeCount := 1 } := by
    simp [edge, edge_one v1 s h]
  have h2 : edge v2 (edge v1 s) = { s with g_edgeCount := 2, g_timeHigh := v2 } := by
    rw [h1]
    simp [edge, edge_two v2 { s with g_edgeCount := 1 } rfl]
  have h3 : edge v3 (edge v2 (edge v1 s)) =
      { s with g_edgeCount := 3, g_timeHigh := v2, g_timePeriod := v3 } := by
    rw [h2]
    simp [edge, edge_three v3 { s with g_edgeCount := 2, g_timeHigh := v2 } rfl]
  rw [h3]
  simp [edge,
    edge_four v4 { s with g_edgeCount := 3, g_timeHigh := v2, g_timePeriod := v3 } rfl]

theorem cycle_traces (v1 v2 v3 v4 : Nat) (s : State) (h : s.g_edgeCount = 0) :
    (Ultrasonic_edgeProcessing v1 s).trace
        = [Cmd.Icu_clearTimerValue, Cmd.Icu_setEdgeDetectionType Icu_EdgeType.FALLING]
    ∧ (Ultrasonic_edgeProcessing v2 (edge v1 s)).trace
        = [Cmd.Icu_getInputCaptureValue v2,
           Cmd.Icu_setEdgeDetectionType Icu_EdgeType.RISING]
    ∧ (Ultrasonic_edgeProcessing v3 (edge v2 (edge v1 s))).trace
        = [Cmd.Icu_getInputCaptureValue v3,
           Cmd.Icu_setEdgeDetectionType Icu_EdgeType.FALLING]
    ∧ (Ultrasonic_edgeProcessing v4 (edge v3 (edge v2 (edge v1 s)))).trace
        = [Cmd.Icu_getInputCaptureValue v4, Cmd.Icu_clearTimerValue,
           Cmd.Icu_setEdgeDetectionType Icu_EdgeType.RISING] := by
  have h1 : edge v1 s = { s with g_edgeCount := 1 } := by
    simp [edge, edge_one v1 s h]
  have h2 : edge v2 (edge v1 s) = { s with g_edgeCount := 2, g_timeHigh := v2 } := by
    rw [h1]
    simp [edge, edge_two v2 { s with g_edgeCount := 1 } rfl]
  have h3 : edge v3 (edge v2 (edge v1 s)) =
      { s with g_edgeCount := 3, g_timeHigh := v2, g_timePeriod := v3 } := by
    rw [h2]
    simp [edge, edge_three v3 { s with g_edgeCount := 2, g_timeHigh := v2 } rfl]
  refine ⟨?_, ?_, ?_, ?_⟩
  · rw [edge_one v1 s h]
  · rw [h1, edge_two v2 { s with g_edgeCount := 1 } rfl]
  · rw [h2, edge_three v3 { s with g_edgeCount := 2, g_timeHigh := v2 } rfl]
  · rw [h3,
      edge_four v4 { s with g_edgeCount := 3, g_timeHigh := v2, g_timePeriod := v3 } rfl]

theorem edge_edgeCount (v : Nat) (s : State) :
    (edge v s).g_edgeCount = (s.g_edgeCount + 1) % 256 := by
  unfold edge Ultrasonic_edgeProcessing u8_inc
  simp only []
  split_ifs <;> rfl

theorem read_edgeCount (d : Nat) (s : State) :
    (read d s).g_edgeCount = if s.g_edgeCount = 4 then 0 else s.g_edgeCount := by
  unfold read
  by_cases h : s.g_edgeCount = 4
  · rw [readDistance_of_four d s h]
    simp [h]
  · rw [readDistance_of_ne_four d s h]
    simp [h]

theorem run_edgeCount_lt (d : Nat) (calls : List Call) :
    ∀ s : State, s.g_edgeCount < 256 → (run d s calls).g_edgeCount < 256 := by
  induction calls with
  | nil => intro s hs; exact hs
  | cons c rest ih =>
    intro s hs
    have hstep : (step d s c).g_edgeCount < 256 := by
      cases c with
      | edgeProcessing v =>
        show (edge v s).g_edgeCount < 256
        rw [edge_edgeCount]
        exact Nat.mod_lt _ (by decide)
      | readDistance =>
        show (read d s).g_edgeCount < 256
        rw [read_edgeCount]
        split_ifs <;> omega
    exact ih (step d s c) hstep

theorem run_edgeCount_le_four (d : Nat) (calls : List Call) :
    ∀ s : State, s.g_edgeCount ≤ 4 → readBeforeNextEdge d s calls = true →
      (run d s calls).g_edgeCount ≤ 4 := by
  induction calls with
  | nil => intro s hs _; exact hs
  | cons c rest ih =>
    intro s hs hg
    cases c with
    | edgeProcessing v =>
      simp only [readBeforeNextEdge, Bool.and_eq_true, bne_iff_ne, ne_eq] at hg
      have hle : (edge v s).g_edgeCount ≤ 4 := by
        rw [edge_edgeCount]
        have := hg.1
        omega
      exact ih (edge v s) hle hg.2
    | readDistance =>
      simp only [readBeforeNextEdge] at hg
      have hle : (read d s).g_edgeCount ≤ 4 := by
        rw [read_edgeCount]
        split_ifs <;> omega
      exact ih (read d s) hle hg

theorem iterate_edge_initial (n : Nat) (hn : n ≤ 255) :
    (edge 0)^[n] State.initial
      = { g_edgeCount := n, g_timeHigh := 0, g_timePeriod := 0,
          g_timePeriodPlusHigh := 0, g_sensorDistance := 0 } := by
  induction n with
  | zero => rfl
  | succ k ih =>
    rw [Function.iterate_succ_apply', ih (by omega)]
    have hk : (k + 1) % 256 = k + 1 := Nat.mod_eq_of_lt (by omega)
    simp only [edge, Ultrasonic_edgeProcessing, u8_inc, hk]
    split_ifs <;> rfl

theorem edgeProcessing_no_branch (v : Nat) (s : State) (h4 : 4 ≤ s.g_edgeCount)
    (h256 : s.g_edgeCount < 256) :
    Ultrasonic_edgeProcessing v s =
      { ret := (), state := { s with g_edgeCount := (s.g_edgeCount + 1) % 256 },
        trace := [] } := by
  have n1 : (s.g_edgeCount + 1) % 256 ≠ 1 := by omega
  have n2 : (s.g_edgeCount + 1) % 256 ≠ 2 := by omega
  have n3 : (s.g_edgeCount + 1) % 256 ≠ 3 := by omega
  have n4 : (s.g_edgeCount + 1) % 256 ≠ 4 := by omega
  simp [Ultrasonic_edgeProcessing, u8_inc, n1, n2, n3, n4]

theorem edge_sensorDistance (v : Nat) (s : State) :
    (edge v s).g_sensorDistance = s.g_sensorDistance := by
  unfold edge Ultrasonic_edgeProcessing
  simp only []
  split_ifs <;> rfl

theorem run_cons (d : Nat) (s : State) (c : Call) (rest : List Call) :
    run d s (c :: rest) = run d (step d s c) rest := rfl

theorem read_of_ne_four (d : Nat) (s : State) (h : s.g_edgeCount ≠ 4) : read d s = s := by
  unfold read
  rw [readDistance_of_ne_four d s h]

theorem run_before_four_edges (d : Nat) (calls : List Call) :
    ∀ s : State, s.g_edgeCount + numCallbacks calls < 4 → s.g_sensorDistance = 0 →
      (run d s calls).g_sensorDistance = 0
      ∧ (run d s calls).g_edgeCount = s.g_edgeCount + numCallbacks calls
      ∧ ∀ r ∈ runReturns d s calls, r = 0 := by
  induction calls with
  | nil =>
    intro s _ hz
    exact ⟨hz, rfl, by simp [runReturns]⟩
  | cons c rest ih =>
    intro s hlt hz
    cases c with
    | edgeProcessing v =>
      simp only [numCallbacks] at hlt
      have hec : (edge v s).g_edgeCount = s.g_edgeCount + 1 := by
        rw [edge_edgeCount]
        omega
      have hdist : (edge v s).g_sensorDistance = 0 := by
        rw [edge_sensorDistance, hz]
      obtain ⟨i1, i2, i3⟩ := ih (edge v s) (by omega) hdist
      refine ⟨i1, ?_, i3⟩
      rw [run_cons]
      show (run d (edge v s) rest).g_edgeCount = _
      rw [i2, hec]
      simp only [numCallbacks]
      omega
    | readDistance =>
      simp only [numCallbacks] at hlt
      have hne : s.g_edgeCount ≠ 4 := by omega
      have hread : read d s = s := read_of_ne_four d s hne
      obtain ⟨i1, i2, i3⟩ := ih s hlt hz
      refine ⟨?_, ?_, ?_⟩
      · rw [run_cons]
        show (run d (read d s) rest).g_sensorDistance = 0
        rw [hread]
        exact i1
      · rw [run_cons]
        show (run d (read d s) rest).g_edgeCount = _
        rw [hread, i2]
        simp only [numCallbacks]
      · intro r hr
        simp only [runReturns, List.mem_cons] at hr
        rcases hr with hr | hr
        · rw [hr, readDistance_of_ne_four d s hne]
          exact hz
        · rw [hread] at hr
          exact i3 r hr

theorem edgeInForce_append (t1 t2 : List Cmd) :
    ∀ e : Option Icu_EdgeType,
      edgeInForce e (t1 ++ t2) = edgeInForce (edgeInForce e t1) t2 := by
  induction t1 with
  | nil => intro e; rfl
  | cons c rest ih =>
    intro e
    cases c <;> exact ih _

theorem edgeProcessing_polarity (v : Nat) (s : State) :
    edgeInForce
        (some (if s.g_edgeCount = 1 ∨ s.g_edgeCount = 3
          then Icu_EdgeType.FALLING else Icu_EdgeType.RISING))
        (Ultrasonic_edgeProcessing v s).trace
      = some (if (edge v s).g_edgeCount = 1 ∨ (edge v s).g_edgeCount = 3
          then Icu_EdgeType.FALLING else Icu_EdgeType.RISING) := by
  rw [edge_edgeCount]
  unfold Ultrasonic_edgeProcessing u8_inc
  simp only []
  by_cases c1 : (s.g_edgeCount + 1) % 256 = 1
  · simp [c1, edgeInForce]
  · by_cases c2 : (s.g_edgeCount + 1) % 256 = 2
    · simp [c2, edgeInForce]
    · by_cases c3 : (s.g_edgeCount + 1) % 256 = 3
      · simp [c3, edgeInForce]
      · by_cases c4 : (s.g_edgeCount + 1) % 256 = 4
        · simp [c4, edgeInForce]
        · have n1 : s.g_edgeCount ≠ 1 := by omega
          have n3 : s.g_edgeCount ≠ 3 := by omega
          simp [c1, c2, c3, c4, n1, n3, edgeInForce]

theorem readDistance_polarity (d : Nat) (s : State) :
    edgeInForce
        (some (if s.g_edgeCount = 1 ∨ s.g_edgeCount = 3
          then Icu_EdgeType.FALLING else Icu_EdgeType.RISING))
        (Ultrasonic_readDistance d s).trace
      = some (if (read d s).g_edgeCount = 1 ∨ (read d s).g_edgeCount = 3
          then Icu_EdgeType.FALLING else Icu_EdgeType.RISING) := by
  by_cases h : s.g_edgeCount = 4
  · unfold read
    rw [readDistance_of_four d s h]
    simp [h, edgeInForce]
  · rw [read_of_ne_four d s h, readDistance_of_ne_four d s h]
    simp [edgeInForce]

theorem run_polarity (d : Nat) (calls : List Call) :
    ∀ s : State,
      edgeInForce
          (some (if s.g_edgeCount = 1 ∨ s.g_edgeCount = 3
            then Icu_EdgeType.FALLING else Icu_EdgeType.RISING))
          (runTrace d s calls)
        = some (if (run d s calls).g_edgeCount = 1 ∨ (run d s calls).g_edgeCount = 3
            then Icu_EdgeType.FALLING else Icu_EdgeType.RISING) := by
  induction calls with
  | nil => intro s; rfl
  | cons c rest ih =>
    intro s
    rw [run_cons]
    simp only [runTrace]
    rw [edgeInForce_append]
    cases c with
    | edgeProcessing v =>
      show edgeInForce (edgeInForce _ (Ultrasonic_edgeProcessing v s).trace)
          (runTrace d (edge v s) rest) = some (if (run d (edge v s) rest).g_edgeCount = 1
            ∨ (run d (edge v s) rest).g_edgeCount = 3
            then Icu_EdgeType.FALLING else Icu_EdgeType.RISING)
      rw [edgeProcessing_polarity v s]
      exact ih (edge v s)
    | readDistance =>
      show edgeInForce (edgeInForce _ (Ultrasonic_readDistance d s).trace)
          (runTrace d (read d s) rest) = some (if (run d (read d s) rest).g_edgeCount = 1
            ∨ (run d (read d s) rest).g_edgeCount = 3
            then Icu_EdgeType.FALLING else Icu_EdgeType.RISING)
      rw [readDistance_polarity d s]
      exact ih (read d s)

theorem run_beyond_four (d : Nat) (calls : List Call) :
    ∀ s : State,
      (5 ≤ s.g_edgeCount ∧ s.g_edgeCount < 256
          ∧ s.g_edgeCount + numCallbacks calls ≤ 256)
        ∨ (s.g_edgeCount = 0 ∧ numCallbacks calls = 0) →
      run d s calls
          = { s with g_edgeCount := (s.g_edgeCount + numCallbacks calls) % 256 }
      ∧ ∀ r ∈ runReturns d s calls, r = s.g_sensorDistance := by
  induction calls with
  | nil =>
    intro s hs
    refine ⟨?_, by simp [runReturns]⟩
    have hmod : (s.g_edgeCount + numCallbacks []) % 256 = s.g_edgeCount := by
      simp only [numCallbacks] at hs ⊢
      omega
    rw [hmod]
    rfl
  | cons c rest ih =>
    intro s hs
    cases c with
    | edgeProcessing v =>
      simp only [numCallbacks] at hs
      have h5 : 5 ≤ s.g_edgeCount := by omega
      have hle : s.g_edgeCount + (numCallbacks rest + 1) ≤ 256 := by omega
      have hedge : edge v s = { s with g_edgeCount := (s.g_edgeCount + 1) % 256 } := by
        unfold edge
        rw [edgeProcessing_no_branch v s (by omega) (by omega)]
      have hnext :
          (5 ≤ (edge v s).g_edgeCount ∧ (edge v s).g_edgeCount < 256
              ∧ (edge v s).g_edgeCount + numCallbacks rest ≤ 256)
            ∨ ((edge v s).g_edgeCount = 0 ∧ numCallbacks rest = 0) := by
        rw [hedge]
        show (5 ≤ (s.g_edgeCount + 1) % 256 ∧ (s.g_edgeCount + 1) % 256 < 256
              ∧ (s.g_edgeCount + 1) % 256 + numCallbacks rest ≤ 256)
            ∨ ((s.g_edgeCount + 1) % 256 = 0 ∧ numCallbacks rest = 0)
        omega
      obtain ⟨i1, i2⟩ := ih (edge v s) hnext
      refine ⟨?_, ?_⟩
      · rw [run_cons]
        show run d (edge v s) rest = _
        rw [i1, hedge]
        have hmod : ((s.g_edgeCount + 1) % 256 + numCallbacks rest) % 256
            = (s.g_edgeCount + numCallbacks (Call.edgeProcessing v :: rest)) % 256 := by
          simp only [numCallbacks]
          omega
        show ({ s with g_edgeCount :=
            ((s.g_edgeCount + 1) % 256 + numCallbacks rest) % 256 } : State) = _
        rw [hmod]
      · intro r hr
        simp only [runReturns] at hr
        rw [i2 r hr, edge_sensorDistance]
    | readDistance =>
      simp only [numCallbacks] at hs
      have hne : s.g_edgeCount ≠ 4 := by omega
      have hread : read d s = s := read_of_ne_four d s hne
      obtain ⟨i1, i2⟩ := ih s hs
      refine ⟨?_, ?_⟩
      · rw [run_cons]
        show run d (read d s) rest = _
        rw [hread, i1]
        simp only [numCallbacks]
      · intro r hr
        simp only [runReturns, List.mem_cons] at hr
        rcases hr with hr | hr
        · rw [hr, readDistance_of_ne_four d s hne]
        · rw [hread] at hr
          exact i2 r hr

/-! ## Reading a completed cycle -/

/-- C1: for every state with `g_edgeCount = 4`, one call of
`Ultrasonic_readDistance` sets the distance to
`(g_timePeriodPlusHigh - g_timePeriod) / DIVISION_FACTOR`, the difference being
that of two `uint16` (taken modulo `2^16`, hence the plain difference whenever
`g_timePeriod ≤ g_timePeriodPlusHigh`), sets `g_edgeCount` to 0, leaves the
other fields alone and returns the distance just computed. In particular this
is what one read does after four callbacks from the all-zero initial state. -/
theorem readDistance_full_cycle (d : Nat) (s : State) (h : s.g_edgeCount = 4) :
    ((Ultrasonic_readDistance d s).state.g_sensorDistance : Int)
        = (((s.g_timePeriodPlusHigh : Int) - s.g_timePeriod) % 65536) / d
    ∧ (s.g_timePeriod ≤ s.g_timePeriodPlusHigh → s.g_timePeriodPlusHigh < 65536 →
        (Ultrasonic_readDistance d s).state.g_sensorDistance
          = (s.g_timePeriodPlusHigh - s.g_timePeriod) / d)
    ∧ (Ultrasonic_readDistance d s).state.g_edgeCount = 0
    ∧ (Ultrasonic_readDistance d s).ret
        = (Ultrasonic_readDistance d s).state.g_sensorDistance
    ∧ (Ultrasonic_readDistance d s).state
        = { s with g_edgeCount := 0,
                   g_sensorDistance := (Ultrasonic_readDistance d s).ret }
    ∧ ∀ v1 v2 v3 v4 : Nat,
        (edge v4 (edge v3 (edge v2 (edge v1 State.initial)))).g_edgeCount = 4
        ∧ ((Ultrasonic_readDistance d
              (edge v4 (edge v3 (edge v2 (edge v1 State.initial))))).ret : Int)
            = (((v4 : Int) - v3) % 65536) / d
        ∧ (Ultrasonic_readDistance d
              (edge v4 (edge v3 (edge v2 (edge v1 State.initial))))).state
            = { g_edgeCount := 0, g_timeHigh := v2, g_timePeriod := v3,
                g_timePeriodPlusHigh := v4,
                g_sensorDistance :=
                  (Ultrasonic_readDistance d
                    (edge v4 (edge v3 (edge v2 (edge v1 State.initial))))).ret } := by
  refine ⟨?_, ?_, ?_, ?_, ?_, ?_⟩
  · rw [readDistance_of_four d s h]
    simp only [Int.natCast_div, u16_sub_int]
  · intro hle hlt
    rw [readDistance_of_four d s h]
    simp only [u16_sub_of_le _ _ hle hlt]
  · rw [readDistance_of_four d s h]
  · exact readDistance_ret_eq d s
  · rw [readDistance_of_four d s h]
  · intro v1 v2 v3 v4
    rw [four_edges v1 v2 v3 v4 State.initial rfl]
    refine ⟨rfl, ?_, ?_⟩
    · rw [readDistance_of_four d _ rfl]
      simp only [Int.natCast_div, u16_sub_int]
    · rw [readDistance_of_four d _ rfl]

/-- Witness of C1: a completed cycle with `g_timePeriod = 200` and
`g_timePeriodPlusHigh = 788`, read with a factor of 58. -/
theorem readDistance_full_cycle_witness :
    (Ultrasonic_readDistance 58
        { g_edgeCount := 4, g_timeHigh := 588, g_timePeriod := 200,
          g_timePeriodPlusHigh := 788, g_sensorDistance := 3 }).state.g_edgeCount = 0
    ∧ (Ultrasonic_readDistance 58
        { g_edgeCount := 4, g_timeHigh := 588, g_timePeriod := 200,
          g_timePeriodPlusHigh := 788, g_sensorDistance := 3 }).ret = 10 :=
  ⟨(readDistance_full_cycle 58
      { g_edgeCount := 4, g_timeHigh := 588, g_timePeriod := 200,
        g_timePeriodPlusHigh := 788, g_sensorDistance := 3 } rfl).2.2.1,
    by decide⟩

/-! ## The four edges of a cycle -/

/-- C2: starting from `g_edgeCount = 0`, four consecutive callbacks, the ICU
holding `v1 .. v4` at the four edges, take `g_edgeCount` through 1, 2, 3, 4;
the 2nd, 3rd and 4th store their capture value in `g_timeHigh`, `g_timePeriod`
and `g_timePeriodPlusHigh`, each field keeping its value at the later edges;
the first callback reads no capture value (and `v1` has no influence), and
`g_sensorDistance` is the same in all five states. -/
theorem edgeProcessing_four_edges (v1 v2 v3 v4 : Nat) (s : State)
    (h : s.g_edgeCount = 0) :
    edge v1 s = { s with g_edgeCount := 1 }
    ∧ edge v2 (edge v1 s) = { s with g_edgeCount := 2, g_timeHigh := v2 }
    ∧ edge v3 (edge v2 (edge v1 s))
        = { s with g_edgeCount := 3, g_timeHigh := v2, g_timePeriod := v3 }
    ∧ edge v4 (edge v3 (edge v2 (edge v1 s)))
        = { s with g_edgeCount := 4, g_timeHigh := v2, g_timePeriod := v3,
                   g_timePeriodPlusHigh := v4 }
    ∧ (∀ c ∈ (Ultrasonic_edgeProcessing v1 s).trace, c.isCaptureRead = false)
    ∧ ((Ultrasonic_edgeProcessing v2 (edge v1 s)).trace.filter Cmd.isCaptureRead
        = [Cmd.Icu_getInputCaptureValue v2])
    ∧ ((Ultrasonic_edgeProcessing v3 (edge v2 (edge v1 s))).trace.filter Cmd.isCaptureRead
        = [Cmd.Icu_getInputCaptureValue v3])
    ∧ ((Ultrasonic_edgeProcessing v4 (edge v3 (edge v2 (edge v1 s)))).trace.filter
          Cmd.isCaptureRead
        = [Cmd.Icu_getInputCaptureValue v4]) := by
  have h1 : edge v1 s = { s with g_edgeCount := 1 } := by
    simp [edge, edge_one v1 s h]
  have h2 : edge v2 (edge v1 s) = { s with g_edgeCount := 2, g_timeHigh := v2 } := by
    rw [h1]
    simp [edge, edge_two v2 { s with g_edgeCount := 1 } rfl]
  have h3 : edge v3 (edge v2 (edge v1 s)) =
      { s with g_edgeCount := 3, g_timeHigh := v2, g_timePeriod := v3 } := by
    rw [h2]
    simp [edge, edge_three v3 { s with g_edgeCount := 2, g_timeHigh := v2 } rfl]
  refine ⟨h1, h2, h3, four_edges v1 v2 v3 v4 s h, ?_, ?_, ?_, ?_⟩
  · rw [edge_one v1 s h]
    simp [Cmd.isCaptureRead]
  · rw [h1, edge_two v2 { s with g_edgeCount := 1 } rfl]
    simp [Cmd.isCaptureRead]
  · rw [h2, edge_three v3 { s with g_edgeCount := 2, g_timeHigh := v2 } rfl]
    simp [Cmd.isCaptureRead]
  · rw [h3,
      edge_four v4 { s with g_edgeCount := 3, g_timeHigh := v2, g_timePeriod := v3 } rfl]
    simp [Cmd.isCaptureRead]

/-- Witness of C2: the four edges of a cycle that starts in a state left by an
earlier cycle, with captures 7, 588, 200 and 788. -/
theorem edgeProcessing_four_edges_witness :
    edge 788 (edge 200 (edge 588 (edge 7
        { g_edgeCount := 0, g_timeHigh := 1, g_timePeriod := 2,
          g_timePeriodPlusHigh := 3, g_sensorDistance := 25 })))
      = { g_edgeCount := 4, g_timeHigh := 588, g_timePeriod := 200,
          g_timePeriodPlusHigh := 788, g_sensorDistance := 25 } :=
  (edgeProcessing_four_edges 7 588 200 788
      { g_edgeCount := 0, g_timeHigh := 1, g_timePeriod := 2,
        g_timePeriodPlusHigh := 3, g_sensorDistance := 25 } rfl).2.2.2.1

/-! ## Reads that find no completed cycle -/

/-- C3: for every state with `g_edgeCount < 4`, `Ultrasonic_readDistance`
leaves the whole state (the distance, `g_edgeCount` and the three timing
fields) unchanged and returns the stored distance. -/
theorem readDistance_incomplete_cycle (d : Nat) (s : State) (h : s.g_edgeCount < 4) :
    (Ultrasonic_readDistance d s).state = s
    ∧ (Ultrasonic_readDistance d s).ret = s.g_sensorDistance := by
  have hne : s.g_edgeCount ≠ 4 := Nat.ne_of_lt h
  rw [readDistance_of_ne_four d s hne]
  exact ⟨rfl, rfl⟩

/-- Witness of C3: a read after two edges of the current cycle. -/
theorem readDistance_incomplete_cycle_witness :
    (2 : Nat) < 4
    ∧ (Ultrasonic_readDistance 58
        { g_edgeCount := 2, g_timeHigh := 588, g_timePeriod := 200,
          g_timePeriodPlusHigh := 788, g_sensorDistance := 10 }).state
      = { g_edgeCount := 2, g_timeHigh := 588, g_timePeriod := 200,
          g_timePeriodPlusHigh := 788, g_sensorDistance := 10 }
    ∧ (Ultrasonic_readDistance 58
        { g_edgeCount := 2, g_timeHigh := 588, g_timePeriod := 200,
          g_timePeriodPlusHigh := 788, g_sensorDistance := 10 }).ret = 10 :=
  ⟨by decide,
    readDistance_incomplete_cycle 58
      { g_edgeCount := 2, g_timeHigh := 588, g_timePeriod := 200,
        g_timePeriodPlusHigh := 788, g_sensorDistance := 10 } (by decide)⟩

/-- C4: for every state, whatever `g_edgeCount` is, a second
`Ultrasonic_readDistance` right after a first one returns the same distance;
and after the first read any number `n` of further reads leaves the state as
the first read left it, the read that follows returning that same distance. -/
theorem readDistance_twice (d : Nat) (s : State) :
    (Ultrasonic_readDistance d (Ultrasonic_readDistance d s).state).ret
        = (Ultrasonic_readDistance d s).ret
    ∧ ∀ n : Nat,
        (read d)^[n] (Ultrasonic_readDistance d s).state
            = (Ultrasonic_readDistance d s).state
        ∧ (Ultrasonic_readDistance d
              ((read d)^[n] (Ultrasonic_readDistance d s).state)).ret
            = (Ultrasonic_readDistance d s).ret := by
  have hne := readDistance_edgeCount_ne_four d s
  have hret := readDistance_ret_eq d s
  have hfix : read d (Ultrasonic_readDistance d s).state
      = (Ultrasonic_readDistance d s).state := by
    unfold read
    rw [readDistance_of_ne_four d _ hne]
  have hagain : (Ultrasonic_readDistance d (Ultrasonic_readDistance d s).state).ret
      = (Ultrasonic_readDistance d s).ret := by
    rw [readDistance_of_ne_four d _ hne]
    exact hret.symm
  refine ⟨hagain, ?_⟩
  intro n
  have hiter : (read d)^[n] (Ultrasonic_readDistance d s).state
      = (Ultrasonic_readDistance d s).state :=
    Function.iterate_fixed hfix n
  rw [hiter]
  exact ⟨rfl, hagain⟩

/-! ## Edge-detection polarity -/

/-- C5: `Ultrasonic_init` puts RISING in force; the four callbacks that follow,
starting from `g_edgeCount = 0`, each request exactly one edge-detection type,
FALLING, RISING, FALLING, RISING in that order, so that the type in force
(the last one requested) is RISING, FALLING, RISING, FALLING, RISING after the
initialization and after edges 1 to 4, the last being the one in force for the
first edge of the next cycle. -/
theorem edge_polarity_alternates (v1 v2 v3 v4 : Nat) (s : State)
    (h : s.g_edgeCount = 0) :
    requestedEdges (Ultrasonic_edgeProcessing v1 (Ultrasonic_init s).state).trace
        = [Icu_EdgeType.FALLING]
    ∧ requestedEdges
        (Ultrasonic_edgeProcessing v2 (edge v1 (Ultrasonic_init s).state)).trace
        = [Icu_EdgeType.RISING]
    ∧ requestedEdges
        (Ultrasonic_edgeProcessing v3
          (edge v2 (edge v1 (Ultrasonic_init s).state))).trace
        = [Icu_EdgeType.FALLING]
    ∧ requestedEdges
        (Ultrasonic_edgeProcessing v4
          (edge v3 (edge v2 (edge v1 (Ultrasonic_init s).state)))).trace
        = [Icu_EdgeType.RISING]
    ∧ edgeInForce none (Ultrasonic_init s).trace = some Icu_EdgeType.RISING
    ∧ edgeInForce none
        ((Ultrasonic_init s).trace
          ++ (Ultrasonic_edgeProcessing v1 (Ultrasonic_init s).state).trace)
        = some Icu_EdgeType.FALLING
    ∧ edgeInForce none
        ((Ultrasonic_init s).trace
          ++ (Ultrasonic_edgeProcessing v1 (Ultrasonic_init s).state).trace
          ++ (Ultrasonic_edgeProcessing v2 (edge v1 (Ultrasonic_init s).state)).trace)
        = some Icu_EdgeType.RISING
    ∧ edgeInForce none
        ((Ultrasonic_init s).trace
          ++ (Ultrasonic_edgeProcessing v1 (Ultrasonic_init s).state).trace
          ++ (Ultrasonic_edgeProcessing v2 (edge v1 (Ultrasonic_init s).state)).trace
          ++ (Ultrasonic_edgeProcessing v3
                (edge v2 (edge v1 (Ultrasonic_init s).state))).trace)
        = some Icu_EdgeType.FALLING
    ∧ edgeInForce none
        ((Ultrasonic_init s).trace
          ++ (Ultrasonic_edgeProcessing v1 (Ultrasonic_init s).state).trace
          ++ (Ultrasonic_edgeProcessing v2 (edge v1 (Ultrasonic_init s).state)).trace
          ++ (Ultrasonic_edgeProcessing v3
                (edge v2 (edge v1 (Ultrasonic_init s).state))).trace
          ++ (Ultrasonic_edgeProcessing v4
                (edge v3 (edge v2 (edge v1 (Ultrasonic_init s).state)))).trace)
        = some Icu_EdgeType.RISING := by
  have hs : (Ultrasonic_init s).state = s := rfl
  have ht : (Ultrasonic_init s).trace
      = [Cmd.Icu_setCallBack,
         Cmd.Icu_init { clock := Icu_Clock.F_CPU_8, edge := Icu_EdgeType.RISING },
         Cmd.GPIO_setupPinDirection] := rfl
  obtain ⟨t1, t2, t3, t4⟩ := cycle_traces v1 v2 v3 v4 s h
  rw [hs, ht, t1, t2, t3, t4]
  simp [requestedEdges, edgeInForce]

/-- Witness of C5: initialization in the all-zero state followed by the four
edges of the first cycle. -/
theorem edge_polarity_alternates_witness :
    State.initial.g_edgeCount = 0
    ∧ requestedEdges
        (Ultrasonic_edgeProcessing 7 (Ultrasonic_init State.initial).state).trace
        = [Icu_EdgeType.FALLING] :=
  ⟨rfl, (edge_polarity_alternates 7 588 200 788 State.initial rfl).1⟩

/-! ## The edge counter -/

/-- Counterexample to C6 as stated: 255 callbacks from the all-zero initial
state leave `g_edgeCount = 255`; the next callback takes the 8-bit counter to
0, not to 256, and this transition to 0 is a callback, not a read. -/
theorem edgeCount_increment_counterexample :
    (edge 0)^[255] State.initial
        = { g_edgeCount := 255, g_timeHigh := 0, g_timePeriod := 0,
            g_timePeriodPlusHigh := 0, g_sensorDistance := 0 }
    ∧ (Ultrasonic_edgeProcessing 0 ((edge 0)^[255] State.initial)).state.g_edgeCount = 0
    ∧ (Ultrasonic_edgeProcessing 0 ((edge 0)^[255] State.initial)).state.g_edgeCount
        ≠ ((edge 0)^[255] State.initial).g_edgeCount + 1
    ∧ (step 58 ((edge 0)^[255] State.initial) (Call.edgeProcessing 0)).g_edgeCount = 0
    ∧ Call.edgeProcessing 0 ≠ Call.readDistance := by
  have h255 := iterate_edge_initial 255 (le_refl 255)
  refine ⟨h255, ?_, ?_, ?_, ?_⟩
  · rw [h255]
    decide
  · rw [h255]
    decide
  · rw [h255]
    decide
  · decide

/-- C6, amended: `g_edgeCount` being a `uint8`, one callback takes it to
`(g_edgeCount + 1) mod 256`: it increases by exactly 1 in every state with
`g_edgeCount < 255` and wraps to 0 at 255. The transitions (callback or read)
that take a non-zero `g_edgeCount` to 0 are exactly `Ultrasonic_readDistance`
called when `g_edgeCount = 4` and the callback called when `g_edgeCount = 255`;
a read in any other state leaves `g_edgeCount` as it is. -/
theorem edgeCount_transitions (d : Nat) (s : State) (hs : s.g_edgeCount < 256) :
    (∀ v : Nat,
      (Ultrasonic_edgeProcessing v s).state.g_edgeCount = (s.g_edgeCount + 1) % 256)
    ∧ (s.g_edgeCount < 255 →
        ∀ v : Nat, (Ultrasonic_edgeProcessing v s).state.g_edgeCount = s.g_edgeCount + 1)
    ∧ (s.g_edgeCount = 255 →
        ∀ v : Nat, (Ultrasonic_edgeProcessing v s).state.g_edgeCount = 0)
    ∧ (s.g_edgeCount = 4 → (Ultrasonic_readDistance d s).state.g_edgeCount = 0)
    ∧ (s.g_edgeCount ≠ 4 →
        (Ultrasonic_readDistance d s).state.g_edgeCount = s.g_edgeCount)
    ∧ (∀ c : Call, s.g_edgeCount ≠ 0 → (step d s c).g_edgeCount = 0 →
        (c = Call.readDistance ∧ s.g_edgeCount = 4)
        ∨ (∃ v : Nat, c = Call.edgeProcessing v ∧ s.g_edgeCount = 255)) := by
  have hedge : ∀ v : Nat,
      (Ultrasonic_edgeProcessing v s).state.g_edgeCount = (s.g_edgeCount + 1) % 256 :=
    fun v => edge_edgeCount v s
  have hread : (Ultrasonic_readDistance d s).state.g_edgeCount
      = if s.g_edgeCount = 4 then 0 else s.g_edgeCount := read_edgeCount d s
  refine ⟨hedge, ?_, ?_, ?_, ?_, ?_⟩
  · intro hlt v
    rw [hedge v]
    omega
  · intro heq v
    rw [hedge v]
    omega
  · intro h4
    rw [hread, if_pos h4]
  · intro h4
    rw [hread, if_neg h4]
  · intro c hne hzero
    cases c with
    | edgeProcessing v =>
      right
      refine ⟨v, rfl, ?_⟩
      have hz : (edge v s).g_edgeCount = 0 := hzero
      rw [edge_edgeCount] at hz
      omega
    | readDistance =>
      left
      refine ⟨rfl, ?_⟩
      have hz : (read d s).g_edgeCount = 0 := hzero
      rw [read_edgeCount] at hz
      by_cases h4 : s.g_edgeCount = 4
      · exact h4
      · rw [if_neg h4] at hz
        exact absurd hz hne

/-- Witness of C6 (amended): the state reached after two edges. -/
theorem edgeCount_transitions_witness :
    (2 : Nat) < 256
    ∧ (Ultrasonic_edgeProcessing 200
        { g_edgeCount := 2, g_timeHigh := 588, g_timePeriod := 0,
          g_timePeriodPlusHigh := 0, g_sensorDistance := 0 }).state.g_edgeCount = 2 + 1 :=
  ⟨by decide,
    (edgeCount_transitions 58
      { g_edgeCount := 2, g_timeHigh := 588, g_timePeriod := 0,
        g_timePeriodPlusHigh := 0, g_sensorDistance := 0 } (by decide)).2.1
      (by decide) 200⟩

/-- Counterexample to C7 as stated: five callbacks in a row from the all-zero
initial state (no read in between) leave `g_edgeCount = 5`, outside 0–4. -/
theorem edgeCount_range_counterexample :
    (run 58 State.initial
        [Call.edgeProcessing 0, Call.edgeProcessing 588, Call.edgeProcessing 200,
         Call.edgeProcessing 788, Call.edgeProcessing 0]).g_edgeCount = 5
    ∧ ¬ (run 58 State.initial
        [Call.edgeProcessing 0, Call.edgeProcessing 588, Call.edgeProcessing 200,
         Call.edgeProcessing 788, Call.edgeProcessing 0]).g_edgeCount ≤ 4 := by
  decide

/-- C7, amended: in every state reachable from the all-zero initial state by a
finite sequence of callbacks and reads, `g_edgeCount` lies in 0–255; it lies in
0–4 when no callback of the sequence is executed in a state with
`g_edgeCount = 4`, that is when every completed cycle is read before the next
edge arrives. -/
theorem edgeCount_range (d : Nat) (calls : List Call) :
    (run d State.initial calls).g_edgeCount < 256
    ∧ (readBeforeNextEdge d State.initial calls = true →
        (run d State.initial calls).g_edgeCount ≤ 4) :=
  ⟨run_edgeCount_lt d calls State.initial (by decide),
    run_edgeCount_le_four d calls State.initial (by decide)⟩

/-- Witness of C7 (amended): a full cycle, a read, and the first two edges of
the next cycle. -/
theorem edgeCount_range_witness :
    readBeforeNextEdge 58 State.initial
        [Call.edgeProcessing 0, Call.edgeProcessing 588, Call.edgeProcessing 200,
         Call.edgeProcessing 788, Call.readDistance, Call.edgeProcessing 0,
         Call.edgeProcessing 590] = true
    ∧ (run 58 State.initial
        [Call.edgeProcessing 0, Call.edgeProcessing 588, Call.edgeProcessing 200,
         Call.edgeProcessing 788, Call.readDistance, Call.edgeProcessing 0,
         Call.edgeProcessing 590]).g_edgeCount ≤ 4 :=
  ⟨by decide,
    (edgeCount_range 58
      [Call.edgeProcessing 0, Call.edgeProcessing 588, Call.edgeProcessing 200,
       Call.edgeProcessing 788, Call.readDistance, Call.edgeProcessing 0,
       Call.edgeProcessing 590]).2 (by decide)⟩

/-! ## Reference scenario -/

/-- C8: with a tick of 1 µs, after a completed cycle (`g_edgeCount = 4`) with
`g_timePeriod = 200` and `g_timePeriodPlusHigh = 200 + 588 = 788`,
`Ultrasonic_readDistance` returns 10 for the scale factor of 58 ticks per
centimetre, and stores it; the same holds for every integer factor from 54 to
58, the factors for which 588 ticks round down to 10. -/
theorem readDistance_reference_10cm (s : State) (h4 : s.g_edgeCount = 4)
    (hp : s.g_timePeriod = 200) (hpp : s.g_timePeriodPlusHigh = 788) :
    (Ultrasonic_readDistance 58 s).ret = 10
    ∧ (Ultrasonic_readDistance 58 s).state.g_sensorDistance = 10
    ∧ ∀ d : Nat, 54 ≤ d → d ≤ 58 → (Ultrasonic_readDistance d s).ret = 10 := by
  have hsub : u16_sub s.g_timePeriodPlusHigh s.g_timePeriod = 588 := by
    rw [hp, hpp]
    rfl
  refine ⟨?_, ?_, ?_⟩
  · rw [readDistance_of_four _ s h4, hsub]
  · rw [readDistance_of_four _ s h4, hsub]
  · intro d hlo hhi
    rw [readDistance_of_four d s h4, hsub]
    show 588 / d = 10
    interval_cases d <;> rfl

/-- Witness of C8: the state left by the four edges of a first cycle whose
captures are 0, 588, 200 and 788. -/
theorem readDistance_reference_10cm_witness :
    (edge 788 (edge 200 (edge 588 (edge 0 State.initial)))).g_edgeCount = 4
    ∧ (Ultrasonic_readDistance 58
        (edge 788 (edge 200 (edge 588 (edge 0 State.initial))))).ret = 10 :=
  ⟨by decide,
    (readDistance_reference_10cm
      (edge 788 (edge 200 (edge 588 (edge 0 State.initial))))
      (by decide) (by decide) (by decide)).1⟩

/-! ## Trigger pulse and frame of a read -/

/-- C9: `Ultrasonic_Trigger` issues exactly pin high, a delay of 10 µs, pin
low, and leaves the globals alone; every `Ultrasonic_readDistance`, whatever
`g_edgeCount`, issues exactly that pulse and nothing else, and is the pulse
followed by the test of `g_edgeCount` made on the state the pulse left, a test
that issues no call of its own. -/
theorem readDistance_trigger_pulse (d : Nat) (s : State) :
    (Ultrasonic_Trigger s).trace
        = [Cmd.GPIO_writePin Logic.LOGIC_HIGH, Cmd.delay_us 10,
           Cmd.GPIO_writePin Logic.LOGIC_LOW]
    ∧ (Ultrasonic_Trigger s).state = s
    ∧ (Ultrasonic_readDistance d s).trace
        = [Cmd.GPIO_writePin Logic.LOGIC_HIGH, Cmd.delay_us 10,
           Cmd.GPIO_writePin Logic.LOGIC_LOW]
    ∧ (Ultrasonic_readDistance d s).trace
        = (Ultrasonic_Trigger s).trace
            ++ (readDistance_afterTrigger d (Ultrasonic_Trigger s).state).trace
    ∧ (readDistance_afterTrigger d (Ultrasonic_Trigger s).state).trace = []
    ∧ (Ultrasonic_readDistance d s).state
        = (readDistance_afterTrigger d (Ultrasonic_Trigger s).state).state
    ∧ (Ultrasonic_readDistance d s).ret
        = (readDistance_afterTrigger d (Ultrasonic_Trigger s).state).ret := by
  have hnil : (readDistance_afterTrigger d (Ultrasonic_Trigger s).state).trace = [] := by
    unfold readDistance_afterTrigger
    split_ifs <;> rfl
  refine ⟨rfl, rfl, ?_, rfl, hnil, rfl, rfl⟩
  show (Ultrasonic_Trigger s).trace
      ++ (readDistance_afterTrigger d (Ultrasonic_Trigger s).state).trace = _
  rw [hnil]
  rfl

/-- C10: for every state, `Ultrasonic_readDistance` leaves `g_timeHigh`,
`g_timePeriod` and `g_timePeriodPlusHigh` unchanged and issues no call to the
capture peripheral (no edge-type change, no counter clear, no capture read);
the state afterwards differs from the one before in `g_edgeCount` and
`g_sensorDistance` at most. -/
theorem readDistance_frame (d : Nat) (s : State) :
    (Ultrasonic_readDistance d s).state.g_timeHigh = s.g_timeHigh
    ∧ (Ultrasonic_readDistance d s).state.g_timePeriod = s.g_timePeriod
    ∧ (Ultrasonic_readDistance d s).state.g_timePeriodPlusHigh = s.g_timePeriodPlusHigh
    ∧ (∀ c ∈ (Ultrasonic_readDistance d s).trace, c.isIcu = false)
    ∧ (Ultrasonic_readDistance d s).state
        = { s with
            g_edgeCount := (Ultrasonic_readDistance d s).state.g_edgeCount,
            g_sensorDistance := (Ultrasonic_readDistance d s).state.g_sensorDistance } := by
  by_cases h : s.g_edgeCount = 4
  · rw [readDistance_of_four d s h]
    simp [Cmd.isIcu]
  · rw [readDistance_of_ne_four d s h]
    simp [Cmd.isIcu]

/-! ## Edges beyond the fourth -/

/-- C11: for every state with `4 ≤ g_edgeCount < 255`, a call of
`Ultrasonic_edgeProcessing` changes nothing but `g_edgeCount`, which becomes
`g_edgeCount + 1` and so exceeds 4: it issues no call at all (no capture read,
no counter clear, no change of the edge-detection type) and leaves
`g_timeHigh`, `g_timePeriod`, `g_timePeriodPlusHigh` and `g_sensorDistance`
unchanged. -/
theorem edgeProcessing_beyond_four (v : Nat) (s : State) (h4 : 4 ≤ s.g_edgeCount)
    (h255 : s.g_edgeCount < 255) :
    (Ultrasonic_edgeProcessing v s).state = { s with g_edgeCount := s.g_edgeCount + 1 }
    ∧ 4 < (Ultrasonic_edgeProcessing v s).state.g_edgeCount
    ∧ (Ultrasonic_edgeProcessing v s).trace = []
    ∧ (Ultrasonic_edgeProcessing v s).state.g_timeHigh = s.g_timeHigh
    ∧ (Ultrasonic_edgeProcessing v s).state.g_timePeriod = s.g_timePeriod
    ∧ (Ultrasonic_edgeProcessing v s).state.g_timePeriodPlusHigh = s.g_timePeriodPlusHigh
    ∧ (Ultrasonic_edgeProcessing v s).state.g_sensorDistance = s.g_sensorDistance := by
  have hmod : (s.g_edgeCount + 1) % 256 = s.g_edgeCount + 1 :=
    Nat.mod_eq_of_lt (by omega)
  rw [edgeProcessing_no_branch v s h4 (by omega), hmod]
  refine ⟨rfl, ?_, rfl, rfl, rfl, rfl, rfl⟩
  show 4 < s.g_edgeCount + 1
  omega

/-- Witness of C11: a fifth edge arriving on a completed cycle that has not
been read. -/
theorem edgeProcessing_beyond_four_witness :
    (4 : Nat) ≤ 4 ∧ (4 : Nat) < 255
    ∧ (Ultrasonic_edgeProcessing 31
        { g_edgeCount := 4, g_timeHigh := 588, g_timePeriod := 200,
          g_timePeriodPlusHigh := 788, g_sensorDistance := 0 }).state
      = { g_edgeCount := 5, g_timeHigh := 588, g_timePeriod := 200,
          g_timePeriodPlusHigh := 788, g_sensorDistance := 0 } :=
  ⟨by decide, by decide,
    (edgeProcessing_beyond_four 31
      { g_edgeCount := 4, g_timeHigh := 588, g_timePeriod := 200,
        g_timePeriodPlusHigh := 788, g_sensorDistance := 0 }
      (by decide) (by decide)).1⟩

/-! ## Counter clears within a cycle -/

/-- C12: in the four callbacks of a cycle that starts from `g_edgeCount = 0`
the free-running counter is cleared once at the 1st edge, once at the 4th and
not at the 2nd or 3rd. The 1st callback issues exactly the clear followed by
the switch to FALLING (no capture read); the 4th issues exactly the capture
read, then the clear, then the switch to RISING, and the value read is the one
stored in `g_timePeriodPlusHigh`. -/
theorem counter_cleared_at_first_and_fourth (v1 v2 v3 v4 : Nat) (s : State)
    (h : s.g_edgeCount = 0) :
    (Ultrasonic_edgeProcessing v1 s).trace
        = [Cmd.Icu_clearTimerValue, Cmd.Icu_setEdgeDetectionType Icu_EdgeType.FALLING]
    ∧ (Ultrasonic_edgeProcessing v4 (edge v3 (edge v2 (edge v1 s)))).trace
        = [Cmd.Icu_getInputCaptureValue v4, Cmd.Icu_clearTimerValue,
           Cmd.Icu_setEdgeDetectionType Icu_EdgeType.RISING]
    ∧ (edge v4 (edge v3 (edge v2 (edge v1 s)))).g_timePeriodPlusHigh = v4
    ∧ ((Ultrasonic_edgeProcessing v1 s).trace.filter Cmd.isCounterClear).length = 1
    ∧ ((Ultrasonic_edgeProcessing v2 (edge v1 s)).trace.filter
          Cmd.isCounterClear).length = 0
    ∧ ((Ultrasonic_edgeProcessing v3 (edge v2 (edge v1 s))).trace.filter
          Cmd.isCounterClear).length = 0
    ∧ ((Ultrasonic_edgeProcessing v4 (edge v3 (edge v2 (edge v1 s)))).trace.filter
          Cmd.isCounterClear).length = 1
    ∧ (∀ c ∈ (Ultrasonic_edgeProcessing v1 s).trace, c.isCaptureRead = false) := by
  obtain ⟨t1, t2, t3, t4⟩ := cycle_traces v1 v2 v3 v4 s h
  rw [t1, t2, t3, t4, four_edges v1 v2 v3 v4 s h]
  simp [Cmd.isCounterClear, Cmd.isCaptureRead]

/-- Witness of C12: the first cycle after reset, with captures 7, 588, 200 and
788. -/
theorem counter_cleared_at_first_and_fourth_witness :
    State.initial.g_edgeCount = 0
    ∧ (Ultrasonic_edgeProcessing 788
        (edge 200 (edge 588 (edge 7 State.initial)))).trace
      = [Cmd.Icu_getInputCaptureValue 788, Cmd.Icu_clearTimerValue,
         Cmd.Icu_setEdgeDetectionType Icu_EdgeType.RISING] :=
  ⟨rfl, (counter_cleared_at_first_and_fourth 7 588 200 788 State.initial rfl).2.1⟩

/-! ## Independence of the pulse width -/

/-- C13: the value returned by `Ultrasonic_readDistance` does not depend on
`g_timeHigh`: for two states that differ only in `g_timeHigh` the read returns
the same distance and issues the same calls, and the two states afterwards
again differ only in `g_timeHigh`. -/
theorem readDistance_independent_of_timeHigh (d : Nat) (s : State) (t : Nat) :
    (Ultrasonic_readDistance d { s with g_timeHigh := t }).ret
        = (Ultrasonic_readDistance d s).ret
    ∧ (Ultrasonic_readDistance d { s with g_timeHigh := t }).state
        = { (Ultrasonic_readDistance d s).state with g_timeHigh := t }
    ∧ (Ultrasonic_readDistance d { s with g_timeHigh := t }).trace
        = (Ultrasonic_readDistance d s).trace := by
  by_cases h : s.g_edgeCount = 4
  · rw [readDistance_of_four d s h, readDistance_of_four d { s with g_timeHigh := t } h]
    exact ⟨rfl, rfl, rfl⟩
  · rw [readDistance_of_ne_four d s h,
      readDistance_of_ne_four d { s with g_timeHigh := t } h]
    exact ⟨rfl, rfl, rfl⟩

/-! ## Underflow of the subtraction -/

/-- C14: for a completed cycle (`g_edgeCount = 4`) with
`g_timePeriodPlusHigh < g_timePeriod`, `Ultrasonic_readDistance` returns a
value: the 16-bit subtraction wraps around, so the returned distance is
`((g_timePeriodPlusHigh - g_timePeriod) mod 2^16) / DIVISION_FACTOR`, that is
`(g_timePeriodPlusHigh + 65536 - g_timePeriod) / DIVISION_FACTOR`; and for
every completed cycle the returned distance is at most
`65535 / DIVISION_FACTOR`. -/
theorem readDistance_underflow (d : Nat) (s : State) (h4 : s.g_edgeCount = 4)
    (hlt : s.g_timePeriodPlusHigh < s.g_timePeriod) (hp : s.g_timePeriod < 65536) :
    ((Ultrasonic_readDistance d s).ret : Int)
        = (((s.g_timePeriodPlusHigh : Int) - s.g_timePeriod) % 65536) / d
    ∧ (Ultrasonic_readDistance d s).ret
        = (s.g_timePeriodPlusHigh + 65536 - s.g_timePeriod) / d
    ∧ (Ultrasonic_readDistance d s).state.g_sensorDistance
        = (Ultrasonic_readDistance d s).ret
    ∧ ∀ s1 : State, s1.g_edgeCount = 4 →
        (Ultrasonic_readDistance d s1).ret ≤ 65535 / d := by
  refine ⟨?_, ?_, ?_, ?_⟩
  · rw [readDistance_of_four d s h4]
    simp only [Int.natCast_div, u16_sub_int]
  · rw [readDistance_of_four d s h4]
    have hsub : u16_sub s.g_timePeriodPlusHigh s.g_timePeriod
        = s.g_timePeriodPlusHigh + 65536 - s.g_timePeriod := by
      unfold u16_sub
      omega
    simp only [hsub]
  · exact (readDistance_ret_eq d s).symm
  · intro s1 h1
    rw [readDistance_of_four d s1 h1]
    have hle : u16_sub s1.g_timePeriodPlusHigh s1.g_timePeriod ≤ 65535 :=
      Nat.le_of_lt_succ (u16_sub_lt _ _)
    exact Nat.div_le_div_right hle

/-- Witness of C14: the counter wrapped between the 3rd and the 4th edge
(`g_timePeriod = 200`, `g_timePeriodPlusHigh = 100`); with a factor of 58 the
read returns 65436 / 58 = 1128. -/
theorem readDistance_underflow_witness :
    (100 : Nat) < 200
    ∧ (Ultrasonic_readDistance 58
        { g_edgeCount := 4, g_timeHigh := 588, g_timePeriod := 200,
          g_timePeriodPlusHigh := 100, g_sensorDistance := 10 }).ret = 1128 :=
  ⟨by decide,
    (readDistance_underflow 58
      { g_edgeCount := 4, g_timeHigh := 588, g_timePeriod := 200,
        g_timePeriodPlusHigh := 100, g_sensorDistance := 10 }
      rfl (by decide) (by decide)).2.1⟩

/-! ## Reads before the first completed cycle -/

/-- C15: the initial state has all five fields zero, and from it every
`Ultrasonic_readDistance` returns 0 as long as fewer than four callbacks have
occurred: each read of a sequence of reads and callbacks with fewer than four
callbacks returns 0, and so does a read made after the sequence. -/
theorem readDistance_zero_before_first_cycle (d : Nat) (calls : List Call)
    (h : numCallbacks calls < 4) :
    State.initial
        = { g_edgeCount := 0, g_timeHigh := 0, g_timePeriod := 0,
            g_timePeriodPlusHigh := 0, g_sensorDistance := 0 }
    ∧ (∀ r ∈ runReturns d State.initial calls, r = 0)
    ∧ (Ultrasonic_readDistance d (run d State.initial calls)).ret = 0 := by
  have h0 : State.initial.g_edgeCount + numCallbacks calls < 4 := by
    show 0 + numCallbacks calls < 4
    omega
  obtain ⟨i1, i2, i3⟩ := run_before_four_edges d calls State.initial h0 rfl
  refine ⟨rfl, i3, ?_⟩
  have hne : (run d State.initial calls).g_edgeCount ≠ 4 := by
    rw [i2]
    omega
  rw [readDistance_of_ne_four d _ hne]
  exact i1

/-- Witness of C15: a read, three edges with a read in between, and a final
read, all before the fourth edge. -/
theorem readDistance_zero_before_first_cycle_witness :
    numCallbacks
        [Call.readDistance, Call.edgeProcessing 7, Call.edgeProcessing 588,
         Call.readDistance, Call.edgeProcessing 200] < 4
    ∧ (Ultrasonic_readDistance 58
        (run 58 State.initial
          [Call.readDistance, Call.edgeProcessing 7, Call.edgeProcessing 588,
           Call.readDistance, Call.edgeProcessing 200])).ret = 0 :=
  ⟨by decide,
    (readDistance_zero_before_first_cycle 58
      [Call.readDistance, Call.edgeProcessing 7, Call.edgeProcessing 588,
       Call.readDistance, Call.edgeProcessing 200] (by decide)).2.2⟩

/-! ## Polarity and phase -/

/-- C16: after `Ultrasonic_init` in the all-zero initial state and any finite
sequence of callbacks and reads, the edge-detection type in force on the
peripheral is FALLING if and only if `g_edgeCount` is 1 or 3, and RISING
otherwise. -/
theorem polarity_phase_invariant (d : Nat) (calls : List Call) :
    (edgeInForce none
        ((Ultrasonic_init State.initial).trace ++ runTrace d State.initial calls)
      = some Icu_EdgeType.FALLING
      ↔ ((run d State.initial calls).g_edgeCount = 1
          ∨ (run d State.initial calls).g_edgeCount = 3))
    ∧ (edgeInForce none
        ((Ultrasonic_init State.initial).trace ++ runTrace d State.initial calls)
      = some Icu_EdgeType.RISING
      ↔ ¬ ((run d State.initial calls).g_edgeCount = 1
          ∨ (run d State.initial calls).g_edgeCount = 3)) := by
  have hinit : edgeInForce none (Ultrasonic_init State.initial).trace
      = some (if State.initial.g_edgeCount = 1 ∨ State.initial.g_edgeCount = 3
          then Icu_EdgeType.FALLING else Icu_EdgeType.RISING) := by
    decide
  rw [edgeInForce_append, hinit, run_polarity d calls State.initial]
  by_cases h : (run d State.initial calls).g_edgeCount = 1
      ∨ (run d State.initial calls).g_edgeCount = 3
  · simp [h]
  · simp [h]

/-! ## Lock-up after a missed read -/

/-- C17: from any state with `g_edgeCount = 5`, along every sequence of reads
and at most 250 callbacks only `g_edgeCount` moves (to 5 plus the number of
callbacks, so never back into 0–4): every read of the sequence, and a read
made after it, returns the distance stored at the start, and no timing field
changes. Along every sequence with exactly 251 callbacks the 8-bit counter
wraps and `g_edgeCount` is 0 at the end, nothing else having changed and every
read having returned the stale distance; four further callbacks and a read
then compute a new distance from the captures of the 3rd and 4th of them. -/
theorem lockup_after_missed_read (d : Nat) (s : State) (h5 : s.g_edgeCount = 5) :
    (∀ calls : List Call, numCallbacks calls ≤ 250 →
        run d s calls = { s with g_edgeCount := 5 + numCallbacks calls }
        ∧ 4 < (run d s calls).g_edgeCount
        ∧ (∀ r ∈ runReturns d s calls, r = s.g_sensorDistance)
        ∧ (Ultrasonic_readDistance d (run d s calls)).ret = s.g_sensorDistance)
    ∧ (∀ calls : List Call, numCallbacks calls = 251 →
        run d s calls = { s with g_edgeCount := 0 }
        ∧ (∀ r ∈ runReturns d s calls, r = s.g_sensorDistance))
    ∧ (∀ (calls : List Call) (v1 v2 v3 v4 : Nat), numCallbacks calls = 251 →
        (edge v4 (edge v3 (edge v2 (edge v1 (run d s calls))))).g_edgeCount = 4
        ∧ ((Ultrasonic_readDistance d
              (edge v4 (edge v3 (edge v2 (edge v1 (run d s calls)))))).ret : Int)
            = (((v4 : Int) - v3) % 65536) / d
        ∧ (Ultrasonic_readDistance d
              (edge v4 (edge v3 (edge v2 (edge v1 (run d s calls)))))).state
            = { g_edgeCount := 0, g_timeHigh := v2, g_timePeriod := v3,
                g_timePeriodPlusHigh := v4,
                g_sensorDistance :=
                  (Ultrasonic_readDistance d
                    (edge v4 (edge v3 (edge v2 (edge v1 (run d s calls)))))).ret }) := by
  have hwrap : ∀ calls : List Call, numCallbacks calls = 251 →
      run d s calls = { s with g_edgeCount := 0 }
      ∧ (∀ r ∈ runReturns d s calls, r = s.g_sensorDistance) := by
    intro calls hn
    obtain ⟨i1, i2⟩ := run_beyond_four d calls s (Or.inl (by omega))
    refine ⟨?_, i2⟩
    rw [i1, h5, hn]
  refine ⟨?_, hwrap, ?_⟩
  · intro calls hn
    obtain ⟨i1, i2⟩ := run_beyond_four d calls s (Or.inl (by omega))
    have hmod : (s.g_edgeCount + numCallbacks calls) % 256 = 5 + numCallbacks calls := by
      omega
    rw [hmod] at i1
    refine ⟨i1, ?_, i2, ?_⟩
    · rw [i1]
      show 4 < 5 + numCallbacks calls
      omega
    · have hne : (run d s calls).g_edgeCount ≠ 4 := by
        rw [i1]
        show 5 + numCallbacks calls ≠ 4
        omega
      rw [readDistance_of_ne_four d _ hne, i1]
  · intro calls v1 v2 v3 v4 hn
    rw [(hwrap calls hn).1, four_edges v1 v2 v3 v4 { s with g_edgeCount := 0 } rfl]
    refine ⟨rfl, ?_, ?_⟩
    · rw [readDistance_of_four d _ rfl]
      simp only [Int.natCast_div, u16_sub_int]
    · rw [readDistance_of_four d _ rfl]

/-- Witness of C17: a fifth edge has arrived on an unread cycle whose distance
would be 10; reads and a further edge still see the old distance 3. -/
theorem lockup_after_missed_read_witness :
    numCallbacks [Call.readDistance, Call.edgeProcessing 9, Call.readDistance] ≤ 250
    ∧ (Ultrasonic_readDistance 58
        (run 58
          { g_edgeCount := 5, g_timeHigh := 588, g_timePeriod := 200,
            g_timePeriodPlusHigh := 788, g_sensorDistance := 3 }
          [Call.readDistance, Call.edgeProcessing 9, Call.readDistance])).ret = 3 :=
  ⟨by decide,
    ((lockup_after_missed_read 58
        { g_edgeCount := 5, g_timeHigh := 588, g_timePeriod := 200,
          g_timePeriodPlusHigh := 788, g_sensorDistance := 3 } rfl).1
      [Call.readDistance, Call.edgeProcessing 9, Call.readDistance]
      (by decide)).2.2.2⟩

end Ultrasonic
